import Mathlib

/-!
A shallow embedding of the `State` class of `thermostate.py` (package
`thermostate`), together with the parts of its collaborators that its
behaviour depends on: the pair registry built by munging the CoolProp
input-pair constant names, the dimension and physical-bounds validators,
the property-pair resolution machinery (`_set_properties`), Python's
attribute interception (`__setattr__` / `__getattr__`), the equality and
ordering protocol, and the constructor.

Modelling conventions:
* `pint` quantities are modelled as a rational magnitude paired with an
  affine unit (dimension exponents, scale, offset relative to SI base
  units); `to_base_units` and `.to(...)` are the corresponding affine maps.
* The CoolProp backend (an external collaborator, treated by the spec as an
  opaque oracle) is a function from a compound input selector and the two
  scalar arguments to either an error message (the text of the `ValueError`
  it raises) or a table of keyed scalar outputs.
* Python exceptions are `PyErr` values returned in an `Except`/`Option`;
  in-place mutation is explicit state passing, and each setter returns the
  (possibly partially) mutated state together with the error, so that
  transactional behaviour is provable rather than assumed.
-/

namespace Thermo

/-- Code-point lexicographic ordering on character lists, as Python compares
strings left to right. -/
def ltL : List Char → List Char → Bool
  | [], [] => false
  | [], _ :: _ => true
  | _ :: _, [] => false
  | a :: as, b :: bs =>
    if a.toNat < b.toNat then true
    else if b.toNat < a.toNat then false
    else ltL as bs

/-- Does the pattern occur at the head of the list? -/
def leadsL : List Char → List Char → Bool
  | [], _ => true
  | _ :: _, [] => false
  | a :: as, b :: bs => a = b && leadsL as bs

/-- Substring occurrence test on character lists (Python `in` on `str`). -/
def containsL (pat : List Char) : List Char → Bool
  | [] => leadsL pat []
  | c :: rest => leadsL pat (c :: rest) || containsL pat rest

/-- Fuel-bounded engine for Python `str.replace`: replaces every
non-overlapping occurrence of `pat` by `rep`, scanning left to right.
The fuel is the length of the subject, enough for the non-empty patterns
used here. -/
def replaceFuel (pat rep : List Char) : Nat → List Char → List Char
  | 0, l => l
  | _ + 1, [] => []
  | n + 1, c :: rest =>
    if leadsL pat (c :: rest) then
      rep ++ replaceFuel pat rep n ((c :: rest).drop pat.length)
    else
      c :: replaceFuel pat rep n rest

/-- Python `s.replace(pat, rep)`. -/
def replaceStr (s pat rep : String) : String :=
  ⟨replaceFuel pat.data rep.data s.data.length s.data⟩

/-- ASCII lower-casing of one character (Python `str.lower` on the ASCII
letters appearing in the CoolProp constant names). -/
def lowerCh (c : Char) : Char :=
  if 65 ≤ c.toNat ∧ c.toNat ≤ 90 then Char.ofNat (c.toNat + 32) else c

/-- ASCII upper-casing of one character (Python `str.upper`). -/
def upperCh (c : Char) : Char :=
  if 97 ≤ c.toNat ∧ c.toNat ≤ 122 then Char.ofNat (c.toNat - 32) else c

def lowerStr (s : String) : String := ⟨s.data.map lowerCh⟩

def upperStr (s : String) : String := ⟨s.data.map upperCh⟩

/-- Python `s[::-1]`, used on the two-letter pair keys. -/
def rev2 (s : String) : String := ⟨s.data.reverse⟩

/-- Python `pat in s` on strings. -/
def containsStr (s pat : String) : Bool := containsL pat.data s.data

/-- Python `key.startswith("_")`. -/
def startsUnd (s : String) : Bool :=
  match s.data with
  | c :: _ => c = '_'
  | [] => false

/-- One-character string. -/
def chStr (c : Char) : String := ⟨[c]⟩

/-- `munge_coolprop_input_prop` from `thermostate.py`: turn a CoolProp
input-pair constant name such as `DmassHmass_INPUTS` into the two-letter
property key `vh`. -/
def munge (prop : String) : String :=
  let p1 := replaceStr (replaceStr (replaceStr prop "_INPUTS" "") "mass" "") "D" "V"
  replaceStr (lowerStr (replaceStr p1 "Q" "X")) "t" "T"

/-- The input-pair selector constant names exposed by `CoolProp.constants`
(the names in `dir(CoolProp.constants)` containing `INPUTS`), from which the
class attribute `State._all_pairs` is computed by introspection.  CoolProp is
the external equation-of-state backend; this is its fixed published
`input_pairs` enumeration. -/
def coolPropInputConstants : List String :=
  ["QT_INPUTS", "PQ_INPUTS", "QSmolar_INPUTS", "QSmass_INPUTS",
   "HmolarQ_INPUTS", "HmassQ_INPUTS", "DmolarQ_INPUTS", "DmassQ_INPUTS",
   "PT_INPUTS", "DmassT_INPUTS", "DmolarT_INPUTS", "HmolarT_INPUTS",
   "HmassT_INPUTS", "SmolarT_INPUTS", "SmassT_INPUTS", "TUmolar_INPUTS",
   "TUmass_INPUTS", "DmassP_INPUTS", "DmolarP_INPUTS", "HmassP_INPUTS",
   "HmolarP_INPUTS", "PSmass_INPUTS", "PSmolar_INPUTS", "PUmass_INPUTS",
   "PUmolar_INPUTS", "HmassSmass_INPUTS", "HmolarSmolar_INPUTS",
   "SmassUmass_INPUTS", "SmolarUmolar_INPUTS", "DmassHmass_INPUTS",
   "DmolarHmolar_INPUTS", "DmassSmass_INPUTS", "DmolarSmolar_INPUTS",
   "DmassUmass_INPUTS", "DmolarUmolar_INPUTS"]

/-- The munged mass-basis pair keys (`State._all_pairs` before closing under
reversal): the constant names containing `INPUTS` but not `molar`. -/
def basePairs : List String :=
  (coolPropInputConstants.filter
    (fun k => containsStr k "INPUTS" && !containsStr k "molar")).map munge

/-- `State._all_pairs` after `update([k[::-1] for k in _all_pairs])`. -/
def allPairs : List String := basePairs ++ basePairs.map rev2

/-- `State._unsupported_pairs = {"Tu", "Th", "us", "hx"}` before closure. -/
def unsupportedBase : List String := ["Tu", "Th", "us", "hx"]

/-- `State._unsupported_pairs` after closing under reversal. -/
def unsupportedPairs : List String := unsupportedBase ++ unsupportedBase.map rev2

/-- `State._allowed_pairs = _all_pairs - _unsupported_pairs`. -/
def allowedPairs : List String :=
  allPairs.filter (fun k => !unsupportedPairs.elem k)

/-- `State._allowed_subs`. -/
def allowedSubs : List String :=
  ["AIR", "AMMONIA", "WATER", "PROPANE", "R134A", "R22",
   "ISOBUTANE", "CARBONDIOXIDE", "OXYGEN", "NITROGEN"]

/-- `State._all_props = set("Tpvuhsx")` as characters. -/
def allProps : List Char := ['T', 'p', 'v', 'u', 'h', 's', 'x']

/-- `State._all_props` as the one-character strings Python stores. -/
def allPropStrs : List String := ["T", "p", "v", "u", "h", "s", "x"]

/-- `State._read_only_props = {"cp", "cv", "phase"}`. -/
def readOnlyProps : List String := ["cp", "cv", "phase"]

/-! ## Quantities and units (the pint collaborator)

A pint unit is modelled by its dimensionality (exponents over the base
dimensions appearing in `State._dimensions`) and the affine map taking a
magnitude in that unit to the magnitude in SI base units
(`base = mag * scale + offset`), which is how pint converts when
`autoconvert_offset_to_baseunit=True` as in `thermostate.py`. -/

/-- An exact scalar: an unnormalized fraction of machine-unbounded integers
with a nonzero denominator in every value the embedding builds.  The Python
code computes with floats; the values exercised here are exact rationals,
and keeping fractions unnormalized makes every arithmetic step computable
by the kernel. -/
structure Frac where
  num : Int
  den : Int
deriving DecidableEq

/-- An integer as a `Frac`. -/
def fInt (n : Int) : Frac := ⟨n, 1⟩

def Frac.add (a b : Frac) : Frac :=
  ⟨a.num * b.den + b.num * a.den, a.den * b.den⟩

def Frac.sub (a b : Frac) : Frac :=
  ⟨a.num * b.den - b.num * a.den, a.den * b.den⟩

def Frac.mul (a b : Frac) : Frac := ⟨a.num * b.num, a.den * b.den⟩

def Frac.div (a b : Frac) : Frac := ⟨a.num * b.den, a.den * b.num⟩

/-- Absolute value of a fraction. -/
def Frac.fabs (a : Frac) : Frac := ⟨|a.num|, |a.den|⟩

/-- Numeric `a < b`, by cross-multiplication (`b - a` is positive exactly
when the product of its numerator and denominator is). -/
def Frac.lt (a b : Frac) : Prop := 0 < (b.sub a).num * (b.sub a).den

/-- Numeric `a <= b`. -/
def Frac.le (a b : Frac) : Prop := 0 ≤ (b.sub a).num * (b.sub a).den

/-- Numeric equality of fractions (Python float `==`). -/
def Frac.eqv (a b : Frac) : Prop := a.num * b.den = b.num * a.den

instance (a b : Frac) : Decidable (Frac.lt a b) :=
  inferInstanceAs (Decidable (_ < _))

instance (a b : Frac) : Decidable (Frac.le a b) :=
  inferInstanceAs (Decidable (_ ≤ _))

instance (a b : Frac) : Decidable (Frac.eqv a b) :=
  inferInstanceAs (Decidable (_ = _))

/-- Dimension exponents over `[mass]`, `[length]`, `[time]`, `[temperature]`
(pint `UnitsContainer` restricted to the base dimensions used by
`State._dimensions`). -/
structure Dims where
  mass : Int
  length : Int
  time : Int
  temp : Int
deriving DecidableEq

/-- An affine unit: dimensionality plus scale and offset to SI base units. -/
structure UnitS where
  dim : Dims
  scale : Frac
  offset : Frac
deriving DecidableEq

/-- A pint quantity: magnitude and unit. -/
structure Quantity where
  mag : Frac
  un : UnitS
deriving DecidableEq

def dimNone : Dims := ⟨0, 0, 0, 0⟩
def dimTemp : Dims := ⟨0, 0, 0, 1⟩
def dimPress : Dims := ⟨1, -1, -2, 0⟩
def dimSpecVol : Dims := ⟨-1, 3, 0, 0⟩
def dimSpecEnergy : Dims := ⟨0, 2, -2, 0⟩
def dimSpecEntropy : Dims := ⟨0, 2, -2, -1⟩

def kelvin : UnitS := ⟨dimTemp, fInt 1, fInt 0⟩
def degC : UnitS := ⟨dimTemp, fInt 1, ⟨5463, 20⟩⟩
def degR : UnitS := ⟨dimTemp, ⟨5, 9⟩, fInt 0⟩
def degF : UnitS := ⟨dimTemp, ⟨5, 9⟩, ⟨45967 * 5, 100 * 9⟩⟩
def pascalU : UnitS := ⟨dimPress, fInt 1, fInt 0⟩
def barU : UnitS := ⟨dimPress, fInt 100000, fInt 0⟩
def psiU : UnitS := ⟨dimPress, ⟨44482216152605 * 10 ^ 8, 10 ^ 13 * 254 ^ 2⟩, fInt 0⟩
def m3kg : UnitS := ⟨dimSpecVol, fInt 1, fInt 0⟩
def ft3lb : UnitS := ⟨dimSpecVol, ⟨3048 ^ 3 * 10 ^ 8, 10 ^ 12 * 45359237⟩, fInt 0⟩
def Jkg : UnitS := ⟨dimSpecEnergy, fInt 1, fInt 0⟩
def kJkg : UnitS := ⟨dimSpecEnergy, fInt 1000, fInt 0⟩
def BTUlb : UnitS := ⟨dimSpecEnergy, ⟨105505585262, 45359237⟩, fInt 0⟩
def JkgK : UnitS := ⟨dimSpecEntropy, fInt 1, fInt 0⟩
def kJkgK : UnitS := ⟨dimSpecEntropy, fInt 1000, fInt 0⟩
def BTUlbR : UnitS :=
  ⟨dimSpecEntropy, ⟨105505585262 * 9, 45359237 * 5⟩, fInt 0⟩
def dimlessU : UnitS := ⟨dimNone, fInt 1, fInt 0⟩
def percentU : UnitS := ⟨dimNone, ⟨1, 100⟩, fInt 0⟩

/-- `value.to_base_units().magnitude`. -/
def Quantity.toBaseMag (q : Quantity) : Frac :=
  (q.mag.mul q.un.scale).add q.un.offset

/-- `value.to(target)` (pint affine conversion, offset units auto-converted
through base units). -/
def Quantity.toUnit (q : Quantity) (t : UnitS) : Quantity :=
  ⟨(q.toBaseMag.sub t.offset).div t.scale, t⟩

/-- `State._dimensions`. -/
def propDims (p : Char) : Dims :=
  if p = 'T' then dimTemp
  else if p = 'p' then dimPress
  else if p = 'v' then dimSpecVol
  else if p = 'u' then dimSpecEnergy
  else if p = 'h' then dimSpecEnergy
  else if p = 's' then dimSpecEntropy
  else dimNone

/-- `State._SI_units` (the canonical SI storage units). -/
def SIu (p : String) : UnitS :=
  if p = "T" then kelvin
  else if p = "p" then pascalU
  else if p = "v" then m3kg
  else if p = "u" then Jkg
  else if p = "h" then Jkg
  else if p = "s" then JkgK
  else if p = "x" then dimlessU
  else if p = "cp" then JkgK
  else if p = "cv" then JkgK
  else dimlessU

/-- `abbreviations.SystemInternational`: display units of profile `"SI"`
(`None` where the class has no attribute for the property, as with
`getattr(default_SI, prop, None)`). -/
def profSI (p : String) : Option UnitS :=
  if p = "T" then some degC
  else if p = "p" then some barU
  else if p = "v" then some m3kg
  else if p = "u" then some kJkg
  else if p = "h" then some kJkg
  else if p = "s" then some kJkgK
  else if p = "cp" then some kJkgK
  else if p = "cv" then some kJkgK
  else none

/-- `abbreviations.EnglishEngineering`: display units of profile `"EE"`. -/
def profEE (p : String) : Option UnitS :=
  if p = "T" then some degF
  else if p = "p" then some psiU
  else if p = "v" then some ft3lb
  else if p = "u" then some BTUlb
  else if p = "h" then some BTUlb
  else if p = "s" then some BTUlbR
  else if p = "cp" then some BTUlbR
  else if p = "cv" then some BTUlbR
  else none

/-! ## Python-level values, errors, and the State record -/

/-- The Python exception classes raised by the `State` code paths, with the
message they carry. -/
inductive PyErr where
  | stateError (msg : String)
  | attributeError (msg : String)
  | valueError (msg : String)
  | typeError (msg : String)
deriving DecidableEq

/-- The Python values flowing through attribute access on a `State`. -/
inductive PyVal where
  | none
  | str (s : String)
  | qty (q : Quantity)
  | tup2 (a b : PyVal)
deriving DecidableEq

/-- One call to the backend handle's `update` method: the compound input
selector constant name and the two scalar arguments in order. -/
structure BCall where
  selector : String
  args : List Frac
deriving DecidableEq

/-- The CoolProp `AbstractState` oracle: `update` either raises a
`ValueError` with some text or succeeds, after which `keyed_output` returns
a scalar for each output-key constant name (`iT`, `iP`, `iDmass`, `iQ`,
`iPhase`, `iUmass`, `iHmass`, `iSmass`, `iCpmass`, `iCvmass`). -/
abbrev Backend := String → List Frac → Except String (String → Frac)

/-- The attribute slots of a `State` object.  `Option.none` in an outer
position means the Python attribute has never been set (reading it raises
`AttributeError`); the inner `Option` of the `x` slot is Python `None`,
stored when the backend reports no defined quality. -/
structure PState where
  sub : String
  label : Option String
  units : Option String
  T : Option Quantity
  p : Option Quantity
  v : Option Quantity
  u : Option Quantity
  h : Option Quantity
  s : Option Quantity
  x : Option (Option Quantity)
  cp : Option Quantity
  cv : Option Quantity
  phase : Option String
deriving DecidableEq

/-- The ten thermodynamic property slots of a `State`, as a tuple (used to
state transactional non-mutation). -/
def PState.slots (st : PState) :=
  (st.T, st.p, st.v, st.u, st.h, st.s, st.x, st.cp, st.cv, st.phase)

/-! ## Error messages (as raised by `thermostate.py`) -/

/-- Rendering of a dimensionality for an error message. -/
def dimRepr (d : Dims) : String :=
  "[mass]^" ++ toString d.mass ++ " [length]^" ++ toString d.length ++
    " [time]^" ++ toString d.time ++ " [temperature]^" ++ toString d.temp

def unknownAttrMsg (key : String) : String := "Unknown attribute " ++ key

def unsupportedMsg (key : String) : String :=
  "The pair of input properties entered (" ++ key ++
    ") isn\x27t supported yet. Sorry!"

def dimMsg (c : Char) : String :=
  "The dimensions for " ++ chStr c ++ " must be " ++ dimRepr (propDims c)

def boundsPosMsg (c : Char) : String :=
  "The value of " ++ chStr c ++ " must be positive in absolute units"

def qualityBoundsMsg : String :=
  "The value of the quality must be between 0 and 1"

def notIndepMsg (c0 c1 : Char) : String :=
  "The given values for " ++ chStr c0 ++ " and " ++ chStr c1 ++
    " are not independent."

def tupleMsg : String := "Must pass a tuple of Quantities"

def unitsTypeErrMsg : String :=
  "The given units are not supported. Must be \x27SI\x27, \x27EE\x27, or None."

def subErrMsg (substance : String) : String :=
  substance ++ " is not an allowed substance."

def arityMsg : String :=
  "Incorrect number of properties specified. Must be 2 or 0."

def argMsg (arg : String) : String :=
  "The argument " ++ arg ++ " is not allowed."

/-! ## Validators -/

/-- `State._check_dimensions`: for each (property, value) pair in order,
compare the value's dimensionality against the property's required
dimensionality, raising a `StateError` naming the first offending
property.  (For every property letter both branches of the Python
`try`/`except` compute this same dimensionality comparison, since
`_SI_units` has an entry of the required dimensionality for each letter.) -/
def checkDimensions : List Char → List Quantity → Option PyErr
  | c :: cs, q :: qs =>
    if q.un.dim = propDims c then checkDimensions cs qs
    else some (.stateError (dimMsg c))
  | _, _ => Option.none

/-- `State._check_values`: the physical-bounds check.  `T`, `v`, `p` must
not be negative in absolute base units; `x` must lie in `[0, 1]`. -/
def checkValues : List Char → List Quantity → Option PyErr
  | c :: cs, q :: qs =>
    if (c = 'T' ∨ c = 'v' ∨ c = 'p') ∧ q.toBaseMag.lt (fInt 0) then
      some (.stateError (boundsPosMsg c))
    else if c = 'x' ∧
        ¬((fInt 0).le q.toBaseMag ∧ q.toBaseMag.le (fInt 1)) then
      some (.stateError qualityBoundsMsg)
    else checkValues cs qs
  | _, _ => Option.none

/-! ## Resolution (`State._set_properties`) -/

/-- `State.to_PropsSI`: convert to the canonical SI unit and take the
magnitude. -/
def toPropsSI (p : String) (q : Quantity) : Frac := (q.toUnit (SIu p)).mag

/-- The backend input key a property letter maps to: `x` to the saturation
quality input `Q`, `v` to the mass density input `Dmass` (via reciprocal),
`T` and `p` directly, other mass-specific properties with the `mass`
postfix. -/
def backendKey (c : Char) : String :=
  if c = 'x' then "Q"
  else if c = 'v' then "Dmass"
  else chStr (upperCh c) ++ (if c = 'T' ∨ c = 'p' then "" else "mass")

/-- The scalar argument passed to the backend for a property letter. -/
def backendArg (c : Char) : Quantity → Frac
  | q =>
    if c = 'x' then toPropsSI "x" q
    else if c = 'v' then (fInt 1).div (toPropsSI "v" q)
    else toPropsSI (chStr c) q

/-- The single backend `update` call built for pair `(c0, c1)` with values
`(a, b)`: the two mapped entries are put in lexicographic order of their
backend keys (`for key in sorted(known_state): known_state.move_to_end(key)`)
and the selector is the concatenation of the ordered keys plus
`_INPUTS`. -/
def backendCallOf (c0 c1 : Char) (a b : Quantity) : BCall :=
  let k0 := backendKey c0
  let k1 := backendKey c1
  let v0 := backendArg c0 a
  let v1 := backendArg c1 b
  if ltL k0.data k1.data then ⟨k0 ++ k1 ++ "_INPUTS", [v0, v1]⟩
  else ⟨k1 ++ k0 ++ "_INPUTS", [v1, v0]⟩

/-- `CoolPropPhaseNames(code).name`: the fixed enumeration of CoolProp's
integer phase codes. -/
def phaseName (code : Frac) : String :=
  if code.eqv (fInt 0) then "liquid"
  else if code.eqv (fInt 1) then "supercritical"
  else if code.eqv (fInt 2) then "supercritical_gas"
  else if code.eqv (fInt 3) then "supercritical_liquid"
  else if code.eqv (fInt 4) then "critical_point"
  else if code.eqv (fInt 5) then "gas"
  else if code.eqv (fInt 6) then "twophase"
  else if code.eqv (fInt 8) then "not_imposed"
  else "unknown"

/-- The display unit applied after resolution: profile lookup
`getattr(default_SI/default_EE, prop, None)` keyed on the state's units
tag. -/
def displayUnit (unitsTag : Option String) (p : String) : Option UnitS :=
  if unitsTag = some "SI" then profSI p
  else if unitsTag = some "EE" then profEE p
  else Option.none

/-- A successfully computed property value, in SI units then converted to
the display unit when the profile defines one. -/
def outProp (unitsTag : Option String) (p : String) (raw : Frac) : Quantity :=
  let value : Quantity := ⟨raw, SIu p⟩
  match displayUnit unitsTag p with
  | some tgt => value.toUnit tgt
  | Option.none => value

/-- The slot-population loop of `_set_properties` after a successful
backend update: every property in `_all_props ∪ _read_only_props` is pulled
from `keyed_output`, wrapped in SI units, special-casing `v` (reciprocal of
`Dmass`), `x` (sentinel `-1` becomes `None`), and `phase` (code to name),
then converted to the active display unit. -/
def applyOutputs (st : PState) (out : String → Frac) : PState :=
  let tag := st.units
  { st with
    T := some (outProp tag "T" (out "iT"))
    p := some (outProp tag "p" (out "iP"))
    v := some (outProp tag "v" ((fInt 1).div (out "iDmass")))
    u := some (outProp tag "u" (out "iUmass"))
    h := some (outProp tag "h" (out "iHmass"))
    s := some (outProp tag "s" (out "iSmass"))
    x := some (if (out "iQ").eqv (fInt (-1)) then Option.none
               else some (outProp tag "x" (out "iQ")))
    cp := some (outProp tag "cp" (out "iCpmass"))
    cv := some (outProp tag "cv" (out "iCvmass"))
    phase := some (phaseName (out "iPhase")) }

/-- `State._set_properties` for the pair `(c0, c1)` with values `(a, b)`:
build and issue the single backend update; on a `ValueError` whose text
contains `Saturation pressure`, raise the not-independent `StateError`,
otherwise re-raise; on success populate every slot.  Returns the state as
mutated so far, the raised error if any, and the backend calls issued. -/
def setProperties (be : Backend) (st : PState) (c0 c1 : Char)
    (a b : Quantity) : PState × Option PyErr × List BCall :=
  match be (backendCallOf c0 c1 a b).selector (backendCallOf c0 c1 a b).args with
  | .error e =>
    if containsStr e "Saturation pressure" then
      (st, some (.stateError (notIndepMsg c0 c1)), [backendCallOf c0 c1 a b])
    else
      (st, some (.valueError e), [backendCallOf c0 c1 a b])
  | .ok out => (applyOutputs st out, Option.none, [backendCallOf c0 c1 a b])

/-- The validated pair-assignment path of `State.__setattr__` for an
allowed pair: dimension check, then bounds check, then resolution. -/
def setPairChecked (be : Backend) (st : PState) (key : String)
    (a b : Quantity) : PState × Option PyErr × List BCall :=
  match key.data with
  | [c0, c1] =>
    match checkDimensions [c0, c1] [a, b] with
    | some e => (st, some e, [])
    | Option.none =>
      match checkValues [c0, c1] [a, b] with
      | some e => (st, some e, [])
      | Option.none => setProperties be st c0 c1 a b
  | _ => (st, some (.attributeError (unknownAttrMsg key)), [])

/-! ## Attribute reading (`State.__getattr__`) -/

/-- Reading the private slot `"_" ++ p` for a property letter, as
`object.__getattribute__(self, "_" + key)` does: an unset slot raises
`AttributeError`, a slot holding Python `None` (quality) reads as `None`. -/
def slotVal (st : PState) (c : Char) : Except PyErr PyVal :=
  if c = 'T' then match st.T with
    | some q => .ok (.qty q)
    | Option.none => .error (.attributeError "_T")
  else if c = 'p' then match st.p with
    | some q => .ok (.qty q)
    | Option.none => .error (.attributeError "_p")
  else if c = 'v' then match st.v with
    | some q => .ok (.qty q)
    | Option.none => .error (.attributeError "_v")
  else if c = 'u' then match st.u with
    | some q => .ok (.qty q)
    | Option.none => .error (.attributeError "_u")
  else if c = 'h' then match st.h with
    | some q => .ok (.qty q)
    | Option.none => .error (.attributeError "_h")
  else if c = 's' then match st.s with
    | some q => .ok (.qty q)
    | Option.none => .error (.attributeError "_s")
  else if c = 'x' then match st.x with
    | some (some q) => .ok (.qty q)
    | some Option.none => .ok .none
    | Option.none => .error (.attributeError "_x")
  else .error (.attributeError ("_" ++ chStr c))

/-- Reading a read-only derived slot (`cp`, `cv`, `phase`). -/
def roVal (st : PState) (key : String) : Except PyErr PyVal :=
  if key = "cp" then match st.cp with
    | some q => .ok (.qty q)
    | Option.none => .error (.attributeError "_cp")
  else if key = "cv" then match st.cv with
    | some q => .ok (.qty q)
    | Option.none => .error (.attributeError "_cv")
  else match st.phase with
    | some ph => .ok (.str ph)
    | Option.none => .error (.attributeError "_phase")

/-- `State.__getattr__`: single property letters read their slot, pair
names (all structurally valid pairs, supported or not) read the two slots
as a tuple ordered per the accessed name, then `phase` and the read-only
properties; anything else raises `AttributeError`. -/
def pyGetattr (st : PState) (key : String) : Except PyErr PyVal :=
  if key ∈ allPropStrs then
    match key.data with
    | [c] => slotVal st c
    | _ => .error (.attributeError (unknownAttrMsg key))
  else if key ∈ allPairs then
    match key.data with
    | [c0, c1] =>
      match slotVal st c0 with
      | .error e => .error e
      | .ok v0 =>
        match slotVal st c1 with
        | .error e => .error e
        | .ok v1 => .ok (.tup2 v0 v1)
    | _ => .error (.attributeError (unknownAttrMsg key))
  else if key = "phase" then roVal st "phase"
  else if key ∈ readOnlyProps then roVal st key
  else .error (.attributeError (unknownAttrMsg key))

/-! ## Attribute assignment (`State.__setattr__` and the property setters) -/

/-- Python `str(value)` on the values a caller could assign (total: these
values all render). -/
def pyStr : PyVal → String
  | .none => "None"
  | .str s => s
  | .qty q => toString q.mag.num ++ " / " ++ toString q.mag.den
  | .tup2 _ _ => "tuple"

/-- The `label` property setter: `None` stays, anything else is converted
with `str`. -/
def labelSetter (st : PState) (value : PyVal) : PState :=
  match value with
  | .none => { st with label := Option.none }
  | v => { st with label := some (pyStr v) }

/-- The `units` property setter: accepts `None`, `"EE"`, `"SI"` (anything
else raises `TypeError`); stores the tag and, when the state is already
resolved (`hasattr(self, "T")`), re-assigns the `Tv` pair from the current
`T` and `v` slots via `setattr(self, "Tv", (self.T, self.v))`. -/
def unitsSetter (be : Backend) (st : PState) (value : PyVal) :
    PState × Option PyErr × List BCall :=
  let ok : Option String → PState × Option PyErr × List BCall := fun tag =>
    let st' := { st with units := tag }
    match st'.T with
    | Option.none => (st', Option.none, [])
    | some tq =>
      match st'.v with
      | Option.none => (st', some (.attributeError "_v"), [])
      | some vq => setPairChecked be st' "Tv" tq vq
  match value with
  | .none => ok Option.none
  | .str s =>
    if s = "EE" ∨ s = "SI" then ok (some s)
    else (st, some (.typeError unitsTypeErrMsg), [])
  | _ => (st, some (.typeError unitsTypeErrMsg), [])

/-- `object.__setattr__` for an underscore-prefixed name: writes the named
private slot directly (the branch `key.startswith("_")`).  Only the slots
the `State` object actually carries are modelled; a quantity value fills a
property slot, `None` fills the quality slot, a string fills `_phase`,
`_units`, `_label` or `_sub`. -/
def rawSet (st : PState) (rest : String) (value : PyVal) : PState :=
  match rest, value with
  | "T", .qty q => { st with T := some q }
  | "p", .qty q => { st with p := some q }
  | "v", .qty q => { st with v := some q }
  | "u", .qty q => { st with u := some q }
  | "h", .qty q => { st with h := some q }
  | "s", .qty q => { st with s := some q }
  | "x", .qty q => { st with x := some (some q) }
  | "x", .none => { st with x := some Option.none }
  | "cp", .qty q => { st with cp := some q }
  | "cv", .qty q => { st with cv := some q }
  | "phase", .str ph => { st with phase := some ph }
  | "units", .str s => { st with units := some s }
  | "units", .none => { st with units := Option.none }
  | "label", .str s => { st with label := some s }
  | "label", .none => { st with label := Option.none }
  | "sub", .str s => { st with sub := s }
  | _, _ => st

/-- `State.__setattr__`: underscore names and `sub` are written directly
(`label` and `units` go through their property setters, which
`object.__setattr__` invokes as data descriptors); allowed pairs are
validated and resolved; unsupported pairs raise the dedicated `StateError`
carrying the pair name; everything else raises `AttributeError`. -/
def pySetattr (be : Backend) (st : PState) (key : String) (value : PyVal) :
    PState × Option PyErr × List BCall :=
  if startsUnd key ∨ key ∈ ["sub", "label", "units"] then
    if key = "label" then (labelSetter st value, Option.none, [])
    else if key = "units" then unitsSetter be st value
    else if key = "sub" then
      match value with
      | .str s => ({ st with sub := s }, Option.none, [])
      | _ => (st, Option.none, [])
    else (rawSet st (⟨key.data.drop 1⟩ : String) value, Option.none, [])
  else if key ∈ allowedPairs then
    match value with
    | .tup2 (.qty a) (.qty b) => setPairChecked be st key a b
    | _ => (st, some (.valueError tupleMsg), [])
  else if key ∈ unsupportedPairs then
    (st, some (.stateError (unsupportedMsg key)), [])
  else
    (st, some (.attributeError (unknownAttrMsg key)), [])

/-! ## Equality and ordering (`__eq__`, `__le__`, `__lt__`, `__gt__`,
`__ge__` and Python's comparison dispatch) -/

/-- `np.isclose` with its default tolerances applied to the base-unit
magnitudes of the two quantities: `|a - b| <= atol + rtol * |b|` with
`rtol = 1e-5` and `atol = 1e-8`. -/
def isclose (a b : Quantity) : Bool :=
  decide ((a.toBaseMag.sub b.toBaseMag).fabs.le
    ((⟨1, 100000000⟩ : Frac).add ((⟨1, 100000⟩ : Frac).mul b.toBaseMag.fabs)))

/-- The body of `State.__eq__` on two `State`s: same substance and
`np.isclose` on temperature and on specific volume, with Python's
short-circuit evaluation order (`self.sub == other.sub and
np.isclose(other.T, self.T) and np.isclose(other.v, self.v)`); reading an
unset property slot raises. -/
def stateEqStates (self other : PState) : Except PyErr Bool :=
  if self.sub = other.sub then
    match other.T, self.T with
    | some tO, some tS =>
      if isclose tO tS then
        match other.v, self.v with
        | some vO, some vS => .ok (isclose vO vS)
        | Option.none, _ => .error (.attributeError "_v")
        | _, Option.none => .error (.attributeError "_v")
      else .ok false
    | Option.none, _ => .error (.attributeError "_T")
    | _, Option.none => .error (.attributeError "_T")
  else .ok false

/-- A Python object on the right of a comparison with a `State`: another
`State`, or any non-`State` object. -/
inductive PyObj where
  | state (st : PState)
  | nonState (tag : String)
deriving DecidableEq

/-- `State.__eq__`: `NotImplemented` (here `Option.none`) for a
non-`State` operand, the substance/T/v comparison otherwise; a non-`State`
left operand stands for default `object.__eq__`, which returns
`NotImplemented` for distinct objects. -/
def dunderEq : PyObj → PyObj → Except PyErr (Option Bool)
  | .state s, .state o =>
    match stateEqStates s o with
    | .error e => .error e
    | .ok r => .ok (some r)
  | .state _, .nonState _ => .ok Option.none
  | .nonState _, _ => .ok Option.none

/-- Python object identity between the modelled objects: two separately
held objects are never identical (`a is b` is false for the dispatches
modelled here, which compare distinct objects). -/
def pyIs : PyObj → PyObj → Bool
  | _, _ => false

/-- Python's `==` dispatch: try the left operand's `__eq__`, then the
reflected `__eq__`, then fall back to identity. -/
def pyEq (a b : PyObj) : Except PyErr Bool :=
  match dunderEq a b with
  | .error e => .error e
  | .ok (some r) => .ok r
  | .ok Option.none =>
    match dunderEq b a with
    | .error e => .error e
    | .ok (some r) => .ok r
    | .ok Option.none => .ok (pyIs a b)

/-- `State.__lt__` / `__le__` / `__gt__` / `__ge__` all return
`NotImplemented` (here `Option.none`). -/
def dunderOrd (_self _other : PState) : Option Bool := Option.none

/-- The `TypeError` Python raises when both the comparison and its
reflection return `NotImplemented`. -/
def orderingErr : PyErr :=
  .typeError "ordering is not supported between instances of State"

/-- Python's `<` dispatch between two `State`s: `__lt__`, then the
reflected `__gt__`, then `TypeError`. -/
def pyLt (a b : PState) : Except PyErr Bool :=
  match dunderOrd a b with
  | some r => .ok r
  | Option.none =>
    match dunderOrd b a with
    | some r => .ok r
    | Option.none => .error orderingErr

/-- Python's `<=` dispatch between two `State`s. -/
def pyLe (a b : PState) : Except PyErr Bool :=
  match dunderOrd a b with
  | some r => .ok r
  | Option.none =>
    match dunderOrd b a with
    | some r => .ok r
    | Option.none => .error orderingErr

/-- Python's `>` dispatch between two `State`s. -/
def pyGt (a b : PState) : Except PyErr Bool :=
  match dunderOrd a b with
  | some r => .ok r
  | Option.none =>
    match dunderOrd b a with
    | some r => .ok r
    | Option.none => .error orderingErr

/-- Python's `>=` dispatch between two `State`s. -/
def pyGe (a b : PState) : Except PyErr Bool :=
  match dunderOrd a b with
  | some r => .ok r
  | Option.none =>
    match dunderOrd b a with
    | some r => .ok r
    | Option.none => .error orderingErr

/-! ## Construction (`State.__init__`) -/

/-- A bare object before `__init__` runs: no attribute set.  The substance
field models a not-yet-written attribute as the empty string. -/
def emptyObj : PState :=
  { sub := "", label := Option.none, units := Option.none,
    T := Option.none, p := Option.none, v := Option.none, u := Option.none,
    h := Option.none, s := Option.none, x := Option.none, cp := Option.none,
    cv := Option.none, phase := Option.none }

/-- The keyword-argument scan of `__init__`: concatenates the property
names in order, rejecting any name outside the property alphabet. -/
def gatherProps : List (String × Quantity) → Except PyErr String
  | [] => .ok ""
  | (arg, _) :: rest =>
    if arg ∈ allPropStrs then
      match gatherProps rest with
      | .error e => .error e
      | .ok tail => .ok (arg ++ tail)
    else .error (.valueError (argMsg arg))

/-- `State.__init__`: units (defaulting to the process-wide default when
the argument is `None`), label, substance (upper-cased and checked against
the allow-list), then the keyword properties: 0 or 2 of them, the pair
must be allowed, and the assignment is delegated to `__setattr__`. -/
def pyInit (be : Backend) (defaultUnits : Option String) (substance : String)
    (labelArg : PyVal) (unitsArg : PyVal)
    (kwargs : List (String × Quantity)) : Except PyErr PState :=
  let unitsVal : PyVal :=
    match unitsArg with
    | .none =>
      match defaultUnits with
      | some s => .str s
      | Option.none => .none
    | v => v
  match pySetattr be emptyObj "units" unitsVal with
  | (_, some e, _) => .error e
  | (st1, Option.none, _) =>
    let st2 := labelSetter st1 labelArg
    if upperStr substance ∈ allowedSubs then
      let st3 := { st2 with sub := upperStr substance }
      match gatherProps kwargs with
      | .error e => .error e
      | .ok inputProps =>
        if inputProps.length > 2 ∨ inputProps.length = 1 then
          .error (.valueError arityMsg)
        else if inputProps.length > 0 ∧ inputProps ∉ allowedPairs then
          .error (.stateError (unsupportedMsg inputProps))
        else if inputProps.length > 0 then
          match kwargs with
          | (_, qa) :: (_, qb) :: _ =>
            match pySetattr be st3 inputProps (.tup2 (.qty qa) (.qty qb)) with
            | (_, some e, _) => .error e
            | (st4, Option.none, _) => .ok st4
          | _ => .error (.valueError arityMsg)
        else .ok st3
    else .error (.valueError (subErrMsg substance))

/-! ## Registry facts -/

/-- Structural well-formedness of a pair key: two distinct property
letters, mapped to distinct backend keys on which the lexicographic
ordering is total, and not colliding with the specially handled attribute
names. -/
def pairOkL : List Char → Bool
  | [c0, c1] =>
    decide (c0 ∈ allProps) && decide (c1 ∈ allProps) && (c0 != c1) &&
      (backendKey c0 != backendKey c1) &&
      (ltL (backendKey c0).data (backendKey c1).data ==
        !ltL (backendKey c1).data (backendKey c0).data)
  | _ => false

def pairOk (k : String) : Bool :=
  !startsUnd k && !decide (k ∈ ["sub", "label", "units"]) && pairOkL k.data


/-! ## Concrete fixtures used by the witnesses -/

/-- A deterministic backend output table for witness evaluation. -/
def testOut : String → Frac := fun k =>
  if k = "iT" then fInt 400
  else if k = "iP" then fInt 101325
  else if k = "iDmass" then fInt 2
  else if k = "iQ" then fInt (-1)
  else if k = "iPhase" then fInt 5
  else if k = "iUmass" then fInt 2547700
  else if k = "iHmass" then fInt 2730300
  else if k = "iSmass" then ⟨74962, 10⟩
  else if k = "iCpmass" then fInt 2000
  else if k = "iCvmass" then fInt 1500
  else fInt 0

/-- A backend whose `update` always succeeds with `testOut`. -/
def testBackend : Backend := fun _ _ => .ok testOut

/-- A backend whose `update` raises the saturation-boundary `ValueError`. -/
def satBackend : Backend := fun _ _ =>
  .error "Input is within the saturation region: Saturation pressure reached"

/-- A backend whose `update` raises an unrelated `ValueError`. -/
def failBackend : Backend := fun _ _ => .error "unable to solve for inputs"

def qT400 : Quantity := ⟨fInt 400, kelvin⟩

def qP1atm : Quantity := ⟨fInt 101325, pascalU⟩

def qBad : Quantity := ⟨fInt 1, dimlessU⟩

/-- A fresh water `State` with no properties resolved. -/
def stW : PState := { emptyObj with sub := "WATER" }

/-- A resolved water `State` (the result of assigning `Tp` with
`(400 K, 101325 Pa)` against `testBackend`). -/
def stR : PState :=
  { sub := "WATER", label := Option.none, units := Option.none,
    T := some ⟨fInt 400, kelvin⟩, p := some ⟨fInt 101325, pascalU⟩,
    v := some ⟨⟨1, 2⟩, m3kg⟩, u := some ⟨fInt 2547700, Jkg⟩,
    h := some ⟨fInt 2730300, Jkg⟩, s := some ⟨⟨74962, 10⟩, JkgK⟩,
    x := some Option.none, cp := some ⟨fInt 2000, JkgK⟩,
    cv := some ⟨fInt 1500, JkgK⟩, phase := some "gas" }

/-- The physical-bounds violation predicate of `_check_values` for one
(property, value) pair. -/
def viol (c : Char) (q : Quantity) : Prop :=
  ((c = 'T' ∨ c = 'v' ∨ c = 'p') ∧ q.toBaseMag.lt (fInt 0)) ∨
    (c = 'x' ∧ ¬((fInt 0).le q.toBaseMag ∧ q.toBaseMag.le (fInt 1)))

/-- The three `StateError`s `_check_values` can raise for the pair
`(c0, c1)`. -/
def isBoundsErr (c0 c1 : Char) (e : PyErr) : Prop :=
  e = .stateError (boundsPosMsg c0) ∨ e = .stateError (boundsPosMsg c1) ∨
    e = .stateError qualityBoundsMsg

theorem allPairs_lit :
    allPairs =
      ["xT", "px", "xs", "hx", "vx", "pT", "vT", "hT", "sT", "Tu", "vp",
       "hp", "ps", "pu", "hs", "su", "vh", "vs", "vu", "Tx", "xp", "sx",
       "xh", "xv", "Tp", "Tv", "Th", "Ts", "uT", "pv", "ph", "sp", "up",
       "sh", "us", "hv", "sv", "uv"] := by
  decide

theorem allowedPairs_lit :
    allowedPairs =
      ["xT", "px", "xs", "vx", "pT", "vT", "sT", "vp", "hp", "ps", "pu",
       "hs", "vh", "vs", "vu", "Tx", "xp", "sx", "xv", "Tp", "Tv", "Ts",
       "pv", "ph", "sp", "up", "sh", "hv", "sv", "uv"] := by
  decide

theorem allowedPairs_ok : ∀ k ∈ allowedPairs, pairOk k = true := by
  rw [allowedPairs_lit]; decide

theorem allowedPairs_sub_allPairs : ∀ k ∈ allowedPairs, k ∈ allPairs := by
  rw [allowedPairs_lit, allPairs_lit]; decide

theorem allowedPairs_rev_closed : ∀ k ∈ allowedPairs, rev2 k ∈ allowedPairs := by
  rw [allowedPairs_lit]; decide

theorem unsupportedPairs_sub_allPairs : ∀ k ∈ unsupportedPairs, k ∈ allPairs := by
  rw [allPairs_lit]; decide

theorem unsupported_not_allowed : ∀ k ∈ unsupportedPairs, k ∉ allowedPairs := by
  rw [allowedPairs_lit]; decide

theorem unsupportedPairs_ok :
    ∀ k ∈ unsupportedPairs,
      startsUnd k = false ∧ k ∉ ["sub", "label", "units"] ∧
        containsStr (unsupportedMsg k) k = true := by
  decide

theorem allPropStrs_len1 : ∀ k ∈ allPropStrs, k.data.length = 1 := by decide

/-- The message families raised along the pair-assignment path are
pairwise distinct for every combination of property letters. -/
theorem msgs_distinct :
    ∀ c0 ∈ allProps, ∀ c1 ∈ allProps, ∀ c2 ∈ allProps,
      notIndepMsg c0 c1 ≠ boundsPosMsg c2 ∧
        notIndepMsg c0 c1 ≠ qualityBoundsMsg ∧
        dimMsg c2 ≠ boundsPosMsg c0 ∧
        dimMsg c2 ≠ qualityBoundsMsg ∧
        (c0 ≠ c1 → boundsPosMsg c0 ≠ boundsPosMsg c1) := by
  decide

theorem pairOk_destruct (key : String) (c0 c1 : Char)
    (h : pairOk key = true) (hd : key.data = [c0, c1]) :
    startsUnd key = false ∧ key ∉ ["sub", "label", "units"] ∧
      c0 ∈ allProps ∧ c1 ∈ allProps ∧ c0 ≠ c1 ∧
      backendKey c0 ≠ backendKey c1 ∧
      ltL (backendKey c0).data (backendKey c1).data =
        !ltL (backendKey c1).data (backendKey c0).data := by
  unfold pairOk at h
  rw [hd] at h
  unfold pairOkL at h
  simp only [Bool.and_eq_true, Bool.not_eq_true', decide_eq_true_eq,
    decide_eq_false_iff_not, bne_iff_ne, beq_iff_eq, ne_eq] at h
  refine ⟨h.1.1, h.1.2, h.2.1.1.1.1, h.2.1.1.1.2, h.2.1.1.2, h.2.1.2, h.2.2⟩

theorem pairOk_data (key : String) (h : pairOk key = true) :
    ∃ c0 c1, key.data = [c0, c1] := by
  unfold pairOk at h
  simp only [Bool.and_eq_true] at h
  have h2 := h.2
  cases hd : key.data with
  | nil => rw [hd] at h2; simp [pairOkL] at h2
  | cons c0 rest =>
    cases rest with
    | nil => rw [hd] at h2; simp [pairOkL] at h2
    | cons c1 rest2 =>
      cases rest2 with
      | nil => exact ⟨c0, c1, rfl⟩
      | cons c2 rest3 => rw [hd] at h2; simp [pairOkL] at h2

theorem notProp_of_len2 (key : String) (c0 c1 : Char)
    (hd : key.data = [c0, c1]) : key ∉ allPropStrs := by
  intro hmem
  have h1 := allPropStrs_len1 key hmem
  rw [hd] at h1
  simp at h1

/-! ## Characterizations of the validators -/

theorem checkDimensions_cons (c : Char) (cs : List Char) (q : Quantity)
    (qs : List Quantity) :
    checkDimensions (c :: cs) (q :: qs) =
      if q.un.dim = propDims c then checkDimensions cs qs
      else some (.stateError (dimMsg c)) := rfl

theorem checkDimensions_nil : checkDimensions [] [] = Option.none := rfl

theorem checkValues_cons (c : Char) (cs : List Char) (q : Quantity)
    (qs : List Quantity) :
    checkValues (c :: cs) (q :: qs) =
      if (c = 'T' ∨ c = 'v' ∨ c = 'p') ∧ q.toBaseMag.lt (fInt 0) then
        some (.stateError (boundsPosMsg c))
      else if c = 'x' ∧
          ¬((fInt 0).le q.toBaseMag ∧ q.toBaseMag.le (fInt 1)) then
        some (.stateError qualityBoundsMsg)
      else checkValues cs qs := rfl

theorem checkValues_nil : checkValues [] [] = Option.none := rfl

theorem checkDimensions_pair (c0 c1 : Char) (a b : Quantity) :
    checkDimensions [c0, c1] [a, b] = Option.none ↔
      a.un.dim = propDims c0 ∧ b.un.dim = propDims c1 := by
  rw [checkDimensions_cons, checkDimensions_cons, checkDimensions_nil]
  split_ifs <;> simp_all

theorem checkDimensions_pair_swap (c0 c1 : Char) (a b : Quantity) :
    (checkDimensions [c0, c1] [a, b] = Option.none) ↔
      (checkDimensions [c1, c0] [b, a] = Option.none) := by
  rw [checkDimensions_pair, checkDimensions_pair]
  exact and_comm

theorem checkValues_pair_none (c0 c1 : Char) (a b : Quantity) :
    checkValues [c0, c1] [a, b] = Option.none ↔ ¬viol c0 a ∧ ¬viol c1 b := by
  unfold viol
  rw [checkValues_cons, checkValues_cons, checkValues_nil]
  split_ifs <;> simp_all

theorem checkValues_pair_swap (c0 c1 : Char) (a b : Quantity) :
    (checkValues [c0, c1] [a, b] = Option.none) ↔
      (checkValues [c1, c0] [b, a] = Option.none) := by
  rw [checkValues_pair_none, checkValues_pair_none]
  exact and_comm

theorem checkValues_pair_some (c0 c1 : Char) (a b : Quantity) (e : PyErr)
    (h : checkValues [c0, c1] [a, b] = some e) : isBoundsErr c0 c1 e := by
  rw [checkValues_cons, checkValues_cons, checkValues_nil] at h
  unfold isBoundsErr
  split_ifs at h <;> simp_all

/-! ## Symmetry of the backend call under pair reversal -/

theorem backendCallOf_swap (c0 c1 : Char) (a b : Quantity)
    (htot : ltL (backendKey c0).data (backendKey c1).data =
      !ltL (backendKey c1).data (backendKey c0).data) :
    backendCallOf c1 c0 b a = backendCallOf c0 c1 a b := by
  unfold backendCallOf
  cases h10 : ltL (backendKey c1).data (backendKey c0).data <;>
    rw [h10] at htot <;> simp [htot, h10]

theorem setProperties_swap (be : Backend) (st : PState) (c0 c1 : Char)
    (a b : Quantity)
    (htot : ltL (backendKey c0).data (backendKey c1).data =
      !ltL (backendKey c1).data (backendKey c0).data) :
    (setProperties be st c1 c0 b a).1 = (setProperties be st c0 c1 a b).1 ∧
      (setProperties be st c1 c0 b a).2.2 =
        (setProperties be st c0 c1 a b).2.2 ∧
      ((setProperties be st c1 c0 b a).2.1 = Option.none ↔
        (setProperties be st c0 c1 a b).2.1 = Option.none) := by
  unfold setProperties
  rw [backendCallOf_swap c0 c1 a b htot]
  cases be (backendCallOf c0 c1 a b).selector (backendCallOf c0 c1 a b).args with
  | error e => cases h : containsStr e "Saturation pressure" <;> simp [h]
  | ok out => simp

/-! ## Dispatch lemmas -/

theorem setPairChecked_eq (be : Backend) (st : PState) (key : String)
    (c0 c1 : Char) (a b : Quantity) (hd : key.data = [c0, c1]) :
    setPairChecked be st key a b =
      match checkDimensions [c0, c1] [a, b] with
      | some e => (st, some e, [])
      | Option.none =>
        match checkValues [c0, c1] [a, b] with
        | some e => (st, some e, [])
        | Option.none => setProperties be st c0 c1 a b := by
  unfold setPairChecked
  rw [hd]

theorem pySetattr_allowed (be : Backend) (st : PState) (key : String)
    (a b : Quantity) (hk : key ∈ allowedPairs) :
    pySetattr be st key (.tup2 (.qty a) (.qty b)) =
      setPairChecked be st key a b := by
  have hok := allowedPairs_ok key hk
  obtain ⟨c0, c1, hd⟩ := pairOk_data key hok
  obtain ⟨h1, h2, -⟩ := pairOk_destruct key c0 c1 hok hd
  have hcond : ¬((startsUnd key = true) ∨ key ∈ ["sub", "label", "units"]) := by
    rw [h1]; simp [h2]
  unfold pySetattr
  rw [if_neg hcond, if_pos hk]

/-- C1: if any step of a property-pair assignment fails — the dimension
check, the physical-bounds check, or the backend update — then every
property slot of the `State` (indeed the whole object) is exactly as it
was before the attempt: resolution is all-or-nothing.  (At construction
the same assignment path runs on a fresh object and a failure propagates
out of `__init__`, so no partially-populated object is returned there
either.) -/
theorem c1_resolution_all_or_nothing (be : Backend) (st : PState)
    (key : String) (a b : Quantity) (hk : key ∈ allowedPairs)
    (herr : (pySetattr be st key (.tup2 (.qty a) (.qty b))).2.1 ≠ Option.none) :
    ((pySetattr be st key (.tup2 (.qty a) (.qty b))).1).slots = st.slots ∧
      (pySetattr be st key (.tup2 (.qty a) (.qty b))).1 = st := by
  rw [pySetattr_allowed be st key a b hk] at herr ⊢
  obtain ⟨c0, c1, hd⟩ := pairOk_data key (allowedPairs_ok key hk)
  rw [setPairChecked_eq be st key c0 c1 a b hd] at herr ⊢
  cases hcd : checkDimensions [c0, c1] [a, b] with
  | some e => exact ⟨rfl, rfl⟩
  | none =>
    rw [hcd] at herr
    cases hcv : checkValues [c0, c1] [a, b] with
    | some e => exact ⟨rfl, rfl⟩
    | none =>
      rw [hcv] at herr
      unfold setProperties at herr ⊢
      cases hbe : be (backendCallOf c0 c1 a b).selector
          (backendCallOf c0 c1 a b).args with
      | error e =>
        cases h : containsStr e "Saturation pressure" <;> simp [h]
      | ok out => rw [hbe] at herr; simp at herr

/-! ## Success-path lemmas -/

theorem setProperties_ok (be : Backend) (st : PState) (c0 c1 : Char)
    (a b : Quantity)
    (h : (setProperties be st c0 c1 a b).2.1 = Option.none) :
    ∃ out,
      be (backendCallOf c0 c1 a b).selector (backendCallOf c0 c1 a b).args =
        .ok out ∧
      (setProperties be st c0 c1 a b).1 = applyOutputs st out := by
  unfold setProperties at h ⊢
  cases hbe : be (backendCallOf c0 c1 a b).selector
      (backendCallOf c0 c1 a b).args with
  | error e =>
    rw [hbe] at h
    cases hs : containsStr e "Saturation pressure" <;> simp [hs] at h
  | ok out => exact ⟨out, rfl, rfl⟩

theorem setPairChecked_ok (be : Backend) (st : PState) (key : String)
    (c0 c1 : Char) (a b : Quantity) (hd : key.data = [c0, c1])
    (h : (setPairChecked be st key a b).2.1 = Option.none) :
    ∃ out, (setPairChecked be st key a b).1 = applyOutputs st out := by
  rw [setPairChecked_eq be st key c0 c1 a b hd] at h ⊢
  cases hcd : checkDimensions [c0, c1] [a, b] with
  | some e => rw [hcd] at h; simp at h
  | none =>
    rw [hcd] at h
    cases hcv : checkValues [c0, c1] [a, b] with
    | some e => rw [hcv] at h; simp at h
    | none =>
      rw [hcv] at h
      obtain ⟨out, -, hst⟩ := setProperties_ok be st c0 c1 a b h
      exact ⟨out, hst⟩

theorem slotVal_applyOutputs_ok (st : PState) (out : String → Frac)
    (c : Char) (hc : c ∈ allProps) :
    ∃ pv, slotVal (applyOutputs st out) c = .ok pv := by
  fin_cases hc
  · exact ⟨_, rfl⟩
  · exact ⟨_, rfl⟩
  · exact ⟨_, rfl⟩
  · exact ⟨_, rfl⟩
  · exact ⟨_, rfl⟩
  · exact ⟨_, rfl⟩
  · by_cases h : (out "iQ").eqv (fInt (-1))
    · exact ⟨.none, by simp [slotVal, applyOutputs, h]⟩
    · exact ⟨.qty (outProp st.units "x" (out "iQ")),
        by simp [slotVal, applyOutputs, h]⟩

theorem pyGetattr_pair (st : PState) (key : String) (c0 c1 : Char)
    (v0 v1 : PyVal) (hd : key.data = [c0, c1]) (hka : key ∈ allPairs)
    (h0 : slotVal st c0 = .ok v0) (h1 : slotVal st c1 = .ok v1) :
    pyGetattr st key = .ok (.tup2 v0 v1) := by
  have hnp := notProp_of_len2 key c0 c1 hd
  unfold pyGetattr
  rw [if_neg hnp, if_pos hka, hd]
  simp [h0, h1]

/-- C2: assigning pair `key = "AB"` with `(a, b)` and assigning the
reversed pair `"BA"` with `(b, a)` issue the same backend update calls
(same selector built by sorting the mapped backend keys, same two scalar
arguments) and produce the same resulting `State`; the assignments succeed
together, on success reading the reversed pair returns the two stored
property values in the order of the accessed name, and every subsequent
attribute read is identical between the two assignment orders. -/
theorem c2_pair_synonym_symmetry (be : Backend) (st : PState) (key : String)
    (c0 c1 : Char) (a b : Quantity) (hk : key ∈ allowedPairs)
    (hd : key.data = [c0, c1]) :
    (pySetattr be st key (.tup2 (.qty a) (.qty b))).2.2 =
        (pySetattr be st (rev2 key) (.tup2 (.qty b) (.qty a))).2.2 ∧
      (pySetattr be st key (.tup2 (.qty a) (.qty b))).1 =
        (pySetattr be st (rev2 key) (.tup2 (.qty b) (.qty a))).1 ∧
      ((pySetattr be st key (.tup2 (.qty a) (.qty b))).2.1 = Option.none ↔
        (pySetattr be st (rev2 key) (.tup2 (.qty b) (.qty a))).2.1 =
          Option.none) ∧
      ((pySetattr be st key (.tup2 (.qty a) (.qty b))).2.1 = Option.none →
        ∃ v0 v1,
          pyGetattr (pySetattr be st key (.tup2 (.qty a) (.qty b))).1 key =
              .ok (.tup2 v0 v1) ∧
            pyGetattr (pySetattr be st key (.tup2 (.qty a) (.qty b))).1
                (rev2 key) =
              .ok (.tup2 v1 v0)) ∧
      (∀ name,
        pyGetattr (pySetattr be st key (.tup2 (.qty a) (.qty b))).1 name =
          pyGetattr (pySetattr be st (rev2 key) (.tup2 (.qty b) (.qty a))).1
            name) := by
  have hok := allowedPairs_ok key hk
  obtain ⟨-, -, hc0, hc1, -, -, htot⟩ := pairOk_destruct key c0 c1 hok hd
  have hrev : rev2 key ∈ allowedPairs := allowedPairs_rev_closed key hk
  have hrd : (rev2 key).data = [c1, c0] := by
    show (String.mk key.data.reverse).data = [c1, c0]
    rw [hd]
    rfl
  have hka : key ∈ allPairs := allowedPairs_sub_allPairs key hk
  rw [pySetattr_allowed be st key a b hk,
    pySetattr_allowed be st (rev2 key) b a hrev,
    setPairChecked_eq be st key c0 c1 a b hd,
    setPairChecked_eq be st (rev2 key) c1 c0 b a hrd]
  have hmain :
      (match checkDimensions [c1, c0] [b, a] with
        | some e => (st, some e, ([] : List BCall))
        | Option.none =>
          match checkValues [c1, c0] [b, a] with
          | some e => (st, some e, [])
          | Option.none => setProperties be st c1 c0 b a).1 =
        (match checkDimensions [c0, c1] [a, b] with
          | some e => (st, some e, ([] : List BCall))
          | Option.none =>
            match checkValues [c0, c1] [a, b] with
            | some e => (st, some e, [])
            | Option.none => setProperties be st c0 c1 a b).1 ∧
      (match checkDimensions [c1, c0] [b, a] with
        | some e => (st, some e, ([] : List BCall))
        | Option.none =>
          match checkValues [c1, c0] [b, a] with
          | some e => (st, some e, [])
          | Option.none => setProperties be st c1 c0 b a).2.2 =
        (match checkDimensions [c0, c1] [a, b] with
          | some e => (st, some e, ([] : List BCall))
          | Option.none =>
            match checkValues [c0, c1] [a, b] with
            | some e => (st, some e, [])
            | Option.none => setProperties be st c0 c1 a b).2.2 ∧
      ((match checkDimensions [c1, c0] [b, a] with
        | some e => (st, some e, ([] : List BCall))
        | Option.none =>
          match checkValues [c1, c0] [b, a] with
          | some e => (st, some e, [])
          | Option.none => setProperties be st c1 c0 b a).2.1 = Option.none ↔
        (match checkDimensions [c0, c1] [a, b] with
          | some e => (st, some e, ([] : List BCall))
          | Option.none =>
            match checkValues [c0, c1] [a, b] with
            | some e => (st, some e, [])
            | Option.none => setProperties be st c0 c1 a b).2.1 =
          Option.none) := by
    cases hcd : checkDimensions [c0, c1] [a, b] with
    | some e =>
      have hne : checkDimensions [c1, c0] [b, a] ≠ Option.none := by
        intro hcon
        have h0 := (checkDimensions_pair_swap c0 c1 a b).mpr hcon
        rw [hcd] at h0
        exact Option.noConfusion h0
      cases hcd2 : checkDimensions [c1, c0] [b, a] with
      | some e2 => exact ⟨rfl, rfl, by simp⟩
      | none => exact absurd hcd2 hne
    | none =>
      have hcd2 : checkDimensions [c1, c0] [b, a] = Option.none :=
        (checkDimensions_pair_swap c0 c1 a b).mp hcd
      rw [hcd2]
      cases hcv : checkValues [c0, c1] [a, b] with
      | some e =>
        have hne : checkValues [c1, c0] [b, a] ≠ Option.none := by
          intro hcon
          have h0 := (checkValues_pair_swap c0 c1 a b).mpr hcon
          rw [hcv] at h0
          exact Option.noConfusion h0
        cases hcv2 : checkValues [c1, c0] [b, a] with
        | some e2 => exact ⟨rfl, rfl, by simp⟩
        | none => exact absurd hcv2 hne
      | none =>
        have hcv2 : checkValues [c1, c0] [b, a] = Option.none :=
          (checkValues_pair_swap c0 c1 a b).mp hcv
        rw [hcv2]
        exact setProperties_swap be st c0 c1 a b htot
  refine ⟨hmain.2.1.symm, hmain.1.symm, (hmain.2.2).symm, ?_, ?_⟩
  · intro hnone
    have hout := setPairChecked_ok be st key c0 c1 a b hd
      (by rw [setPairChecked_eq be st key c0 c1 a b hd]; exact hnone)
    rw [setPairChecked_eq be st key c0 c1 a b hd] at hout
    obtain ⟨out, hst⟩ := hout
    obtain ⟨v0, h0⟩ := slotVal_applyOutputs_ok st out c0 hc0
    obtain ⟨v1, h1⟩ := slotVal_applyOutputs_ok st out c1 hc1
    refine ⟨v0, v1, ?_, ?_⟩
    · rw [hst]
      exact pyGetattr_pair (applyOutputs st out) key c0 c1 v0 v1 hd hka h0 h1
    · rw [hst]
      exact pyGetattr_pair (applyOutputs st out) (rev2 key) c1 c0 v1 v0 hrd
        (allowedPairs_sub_allPairs (rev2 key) hrev) h1 h0
  · intro name
    rw [hmain.1]

/-- C3: for two resolved `State`s, Python `==` returns `True` exactly when
the substances are equal and the temperatures and the specific volumes are
each numerically close (`np.isclose`); states of different substances
compare `False` even with matching `T` and `v`; and every ordering
comparison (`<`, `<=`, `>`, `>=`) raises `TypeError` because both the
operator and its reflection return `NotImplemented`. -/
theorem c3_equality_contract (s o : PState) (tS vS tO vO : Quantity)
    (hTs : s.T = some tS) (hvs : s.v = some vS)
    (hTo : o.T = some tO) (hvo : o.v = some vO) :
    (pyEq (.state s) (.state o) = .ok true ↔
        s.sub = o.sub ∧ isclose tO tS = true ∧ isclose vO vS = true) ∧
      (s.sub ≠ o.sub → pyEq (.state s) (.state o) = .ok false) ∧
      pyLt s o = .error orderingErr ∧ pyLe s o = .error orderingErr ∧
      pyGt s o = .error orderingErr ∧ pyGe s o = .error orderingErr := by
  have hbody : stateEqStates s o =
      .ok (decide (s.sub = o.sub) && (isclose tO tS && isclose vO vS)) := by
    unfold stateEqStates
    rw [hTs, hTo, hvs, hvo]
    by_cases hsub : s.sub = o.sub
    · cases hT : isclose tO tS <;> simp [hsub, hT]
    · simp [hsub]
  have hp : pyEq (.state s) (.state o) =
      .ok (decide (s.sub = o.sub) && (isclose tO tS && isclose vO vS)) := by
    simp only [pyEq, dunderEq]
    rw [hbody]
  refine ⟨?_, ?_, rfl, rfl, rfl, rfl⟩
  · rw [hp]
    simp
  · intro hsub
    rw [hp]
    simp [hsub]

/-- C10: `State.__eq__` applied to a non-`State` right operand returns
`NotImplemented` without reading any attribute of either operand (in
particular it does not raise even on an unresolved `State`), and Python's
fallback then evaluates the `==` comparison to `False`. -/
theorem c10_eq_nonstate (st : PState) (tag : String) :
    dunderEq (.state st) (.nonState tag) = .ok Option.none ∧
      pyEq (.state st) (.nonState tag) = .ok false :=
  ⟨rfl, rfl⟩


/-- C4: for an allowed-pair assignment, after the dimension check passes
(and the dimension check runs first: its error is what surfaces when it
fails, with no backend call), a physically-invalid-value `StateError` is
raised if and only if a supplied `T`, `p` or `v` value is negative in
absolute base units or a supplied `x` value lies outside `[0, 1]`; the
violation is reported before any backend invocation, the error names the
offending property (`boundsPosMsg`/`qualityBoundsMsg`), and it is distinct
from the dimension errors of the pair. -/
theorem c4_physical_bounds (be : Backend) (st : PState) (key : String)
    (c0 c1 : Char) (a b : Quantity) (hk : key ∈ allowedPairs)
    (hd : key.data = [c0, c1]) :
    (∀ e, checkDimensions [c0, c1] [a, b] = some e →
        pySetattr be st key (.tup2 (.qty a) (.qty b)) = (st, some e, [])) ∧
      (checkDimensions [c0, c1] [a, b] = Option.none →
        ((∃ e, (pySetattr be st key (.tup2 (.qty a) (.qty b))).2.1 = some e ∧
            isBoundsErr c0 c1 e) ↔ (viol c0 a ∨ viol c1 b)) ∧
          ((viol c0 a ∨ viol c1 b) →
            (pySetattr be st key (.tup2 (.qty a) (.qty b))).2.2 = [])) ∧
      (∀ e, isBoundsErr c0 c1 e →
        e ≠ .stateError (dimMsg c0) ∧ e ≠ .stateError (dimMsg c1)) := by
  have hok := allowedPairs_ok key hk
  obtain ⟨-, -, hc0, hc1, -, -, -⟩ := pairOk_destruct key c0 c1 hok hd
  rw [pySetattr_allowed be st key a b hk,
    setPairChecked_eq be st key c0 c1 a b hd]
  refine ⟨?_, ?_, ?_⟩
  · intro e he
    rw [he]
  · intro hcd
    rw [hcd]
    have hviol : checkValues [c0, c1] [a, b] ≠ Option.none →
        viol c0 a ∨ viol c1 b := by
      intro hne
      by_contra hno
      rw [not_or] at hno
      exact hne ((checkValues_pair_none c0 c1 a b).mpr ⟨hno.1, hno.2⟩)
    cases hcv : checkValues [c0, c1] [a, b] with
    | some e2 =>
      have hvd : viol c0 a ∨ viol c1 b := hviol (by rw [hcv]; simp)
      exact ⟨⟨fun _ => hvd,
        fun _ => ⟨e2, rfl, checkValues_pair_some c0 c1 a b e2 hcv⟩⟩,
        fun _ => rfl⟩
    | none =>
      have hnov := (checkValues_pair_none c0 c1 a b).mp hcv
      constructor
      · constructor
        · rintro ⟨e, he, hbnd⟩
          exfalso
          revert he
          unfold setProperties
          cases hbs : be (backendCallOf c0 c1 a b).selector
              (backendCallOf c0 c1 a b).args with
          | error msg =>
            cases hsat : containsStr msg "Saturation pressure"
            · simp only [hsat, Bool.false_eq_true, if_false]
              intro he
              rcases hbnd with h | h | h <;> simp [h] at he
            · simp only [hsat, if_true]
              intro he
              have hinj : e = PyErr.stateError (notIndepMsg c0 c1) := by
                have h2 : PyErr.stateError (notIndepMsg c0 c1) = e := by
                  simpa using he
                exact h2.symm
              rcases hbnd with h | h | h <;> rw [h] at hinj
              · exact (msgs_distinct c0 hc0 c1 hc1 c0 hc0).1
                  (by simpa using hinj.symm)
              · exact (msgs_distinct c0 hc0 c1 hc1 c1 hc1).1
                  (by simpa using hinj.symm)
              · exact (msgs_distinct c0 hc0 c1 hc1 c0 hc0).2.1
                  (by simpa using hinj.symm)
          | ok out => simp
        · intro hv
          rcases hv with h | h
          · exact absurd h hnov.1
          · exact absurd h hnov.2
      · intro hv
        rcases hv with h | h
        · exact absurd h hnov.1
        · exact absurd h hnov.2
  · intro e hbnd
    constructor
    · rcases hbnd with h | h | h <;> rw [h] <;> intro hcon
      · exact (msgs_distinct c0 hc0 c1 hc1 c0 hc0).2.2.1
          (by simpa using hcon.symm)
      · exact (msgs_distinct c1 hc1 c1 hc1 c0 hc0).2.2.1
          (by simpa using hcon.symm)
      · exact (msgs_distinct c0 hc0 c1 hc1 c0 hc0).2.2.2.1
          (by simpa using hcon.symm)
    · rcases hbnd with h | h | h <;> rw [h] <;> intro hcon
      · exact (msgs_distinct c0 hc0 c0 hc0 c1 hc1).2.2.1
          (by simpa using hcon.symm)
      · exact (msgs_distinct c1 hc1 c0 hc0 c1 hc1).2.2.1
          (by simpa using hcon.symm)
      · exact (msgs_distinct c0 hc0 c1 hc1 c1 hc1).2.2.2.1
          (by simpa using hcon.symm)

/-- C5: once an allowed-pair assignment passes both validators it issues
exactly one backend update call (the canonical sorted call); if the backend
raises an error whose text contains `Saturation pressure` the assignment
raises the dedicated not-independent `StateError` naming the two supplied
properties, any other backend error propagates unchanged (as the same
`ValueError`), and in every case no second backend call is made. -/
theorem c5_backend_error_translation (be : Backend) (st : PState)
    (key : String) (c0 c1 : Char) (a b : Quantity) (hk : key ∈ allowedPairs)
    (hd : key.data = [c0, c1])
    (hdim : checkDimensions [c0, c1] [a, b] = Option.none)
    (hval : checkValues [c0, c1] [a, b] = Option.none) :
    (pySetattr be st key (.tup2 (.qty a) (.qty b))).2.2 =
        [backendCallOf c0 c1 a b] ∧
      (∀ msg,
        be (backendCallOf c0 c1 a b).selector (backendCallOf c0 c1 a b).args =
            .error msg →
          (containsStr msg "Saturation pressure" = true →
            (pySetattr be st key (.tup2 (.qty a) (.qty b))).2.1 =
              some (.stateError (notIndepMsg c0 c1))) ∧
            (containsStr msg "Saturation pressure" = false →
              (pySetattr be st key (.tup2 (.qty a) (.qty b))).2.1 =
                some (.valueError msg))) ∧
      (∀ out,
        be (backendCallOf c0 c1 a b).selector (backendCallOf c0 c1 a b).args =
            .ok out →
          (pySetattr be st key (.tup2 (.qty a) (.qty b))).2.1 = Option.none ∧
            (pySetattr be st key (.tup2 (.qty a) (.qty b))).1 =
              applyOutputs st out) := by
  rw [pySetattr_allowed be st key a b hk,
    setPairChecked_eq be st key c0 c1 a b hd, hdim, hval]
  unfold setProperties
  refine ⟨?_, ?_, ?_⟩
  · cases hbs : be (backendCallOf c0 c1 a b).selector
        (backendCallOf c0 c1 a b).args with
    | error msg => cases hsat : containsStr msg "Saturation pressure" <;>
        simp [hsat]
    | ok out => rfl
  · intro msg hbs
    rw [hbs]
    constructor
    · intro hsat
      simp [hsat]
    · intro hsat
      simp [hsat]
  · intro out hbs
    rw [hbs]
    exact ⟨rfl, rfl⟩


theorem allowedPairs_mem_iff (k : String) :
    k ∈ allowedPairs ↔ (k ∈ allPairs ∧ k ∉ unsupportedPairs) := by
  show k ∈ allPairs.filter _ ↔ _
  rw [List.mem_filter]
  simp [List.elem_iff]

/-- C6: the unsupported-pair set is closed under reversal; assigning an
unsupported pair raises a `StateError` whose message carries the pair
name, a different exception kind from the `AttributeError` raised for an
attribute name that is not a recognized pair (or property) at all; the
allowed and unsupported classes are disjoint and together they exactly
cover the recognized pairs, so all three classes are disjoint. -/
theorem c6_unsupported_pair_taxonomy :
    (∀ k ∈ unsupportedPairs, rev2 k ∈ unsupportedPairs) ∧
      (∀ (be : Backend) (st : PState) (k : String) (v : PyVal),
        k ∈ unsupportedPairs →
          pySetattr be st k v =
              (st, some (.stateError (unsupportedMsg k)), []) ∧
            containsStr (unsupportedMsg k) k = true) ∧
      (∀ (be : Backend) (st : PState) (k : String) (v : PyVal),
        startsUnd k = false → k ∉ ["sub", "label", "units"] →
          k ∉ allPairs →
          pySetattr be st k v =
            (st, some (.attributeError (unknownAttrMsg k)), [])) ∧
      (∀ m m2, PyErr.stateError m ≠ PyErr.attributeError m2) ∧
      (∀ k, ¬(k ∈ allowedPairs ∧ k ∈ unsupportedPairs)) ∧
      (∀ k, k ∈ allPairs ↔ (k ∈ allowedPairs ∨ k ∈ unsupportedPairs)) := by
  refine ⟨by decide, ?_, ?_, ?_, ?_, ?_⟩
  · intro be st k v hk
    obtain ⟨h1, h2, h3⟩ := unsupportedPairs_ok k hk
    have hna := unsupported_not_allowed k hk
    constructor
    · unfold pySetattr
      rw [if_neg (by rw [h1]; simp [h2]), if_neg hna, if_pos hk]
    · exact h3
  · intro be st k v h1 h2 h3
    have hnAllowed : k ∉ allowedPairs := fun hc =>
      h3 (allowedPairs_sub_allPairs k hc)
    have hnUnsup : k ∉ unsupportedPairs := fun hc =>
      h3 (unsupportedPairs_sub_allPairs k hc)
    unfold pySetattr
    rw [if_neg (by rw [h1]; simp [h2]), if_neg hnAllowed, if_neg hnUnsup]
  · intro m m2
    exact fun hc => PyErr.noConfusion hc
  · intro k ⟨ha, hu⟩
    exact ((allowedPairs_mem_iff k).mp ha).2 hu
  · intro k
    constructor
    · intro hall
      by_cases hu : k ∈ unsupportedPairs
      · exact Or.inr hu
      · exact Or.inl ((allowedPairs_mem_iff k).mpr ⟨hall, hu⟩)
    · intro h
      rcases h with h | h
      · exact allowedPairs_sub_allPairs k h
      · exact unsupportedPairs_sub_allPairs k h

theorem pySetattr_pair_sub (be : Backend) (st : PState) (key : String)
    (a b : Quantity) (hk : key ∈ allowedPairs) :
    ((pySetattr be st key (.tup2 (.qty a) (.qty b))).1).sub = st.sub := by
  rw [pySetattr_allowed be st key a b hk]
  obtain ⟨c0, c1, hd⟩ := pairOk_data key (allowedPairs_ok key hk)
  rw [setPairChecked_eq be st key c0 c1 a b hd]
  cases hcd : checkDimensions [c0, c1] [a, b] with
  | some e => rfl
  | none =>
    cases hcv : checkValues [c0, c1] [a, b] with
    | some e => rfl
    | none =>
      unfold setProperties
      cases hbs : be (backendCallOf c0 c1 a b).selector
          (backendCallOf c0 c1 a b).args with
      | error msg =>
        cases hsat : containsStr msg "Saturation pressure" <;> simp [hsat]
      | ok out => rfl

/-- C7 (amended): the substance identifier stored at construction equals
the uppercased construction argument and construction fails with a
`ValueError` when that uppercased argument is not in the allow-list;
however, the substance is NOT immutable afterwards: `__setattr__` passes
the attribute name `sub` straight to `object.__setattr__`, so assigning
`state.sub` silently replaces the substance without any validation. -/
theorem c7_substance_upper_and_mutable :
    (∀ (be : Backend) (defU : Option String) (sub0 : String)
        (lbl uArg : PyVal) (kwargs : List (String × Quantity)) (st2 : PState),
      pyInit be defU sub0 lbl uArg kwargs = .ok st2 →
        st2.sub = upperStr sub0 ∧ upperStr sub0 ∈ allowedSubs) ∧
      (∀ (be : Backend) (sub0 : String) (lbl : PyVal)
          (kwargs : List (String × Quantity)),
        upperStr sub0 ∉ allowedSubs →
          pyInit be Option.none sub0 lbl .none kwargs =
            .error (.valueError (subErrMsg sub0))) ∧
      (∀ (be : Backend) (st : PState) (s2 : String),
        pySetattr be st "sub" (.str s2) =
          ({ st with sub := s2 }, Option.none, [])) := by
  refine ⟨?_, ?_, fun be st s2 => rfl⟩
  · intro be defU sub0 lbl uArg kwargs st2 h
    simp only [pyInit] at h
    split at h
    · exact absurd h (by simp)
    · rename_i st1 calls1 heq
      split at h
      · rename_i hsub
        refine ⟨?_, hsub⟩
        split at h
        · exact absurd h (by simp)
        · rename_i inputProps hgather
          split at h
          · exact absurd h (by simp)
          · split at h
            · exact absurd h (by simp)
            · rename_i harity hpair
              split at h
              · rename_i hlen
                have hmem : inputProps ∈ allowedPairs := by
                  by_contra hc
                  exact hpair ⟨hlen, hc⟩
                split at h
                · rename_i pa qa pb qb rest
                  split at h
                  · exact absurd h (by simp)
                  · rename_i st4 calls4 hset
                    have h4 : st4 = st2 := by simpa using h
                    have hps := pySetattr_pair_sub be
                      { labelSetter st1 lbl with sub := upperStr sub0 }
                      inputProps qa qb hmem
                    rw [hset] at hps
                    simp at hps
                    rw [← h4, hps]
                · exact absurd h (by simp)
              · have h2 : st2 =
                    { labelSetter st1 lbl with sub := upperStr sub0 } := by
                  have := h
                  simp at this
                  exact this.symm
                rw [h2]
      · exact absurd h (by simp)
  · intro be sub0 lbl kwargs hno
    have hu : pySetattr be emptyObj "units" .none =
        ({ emptyObj with units := Option.none }, Option.none, []) := rfl
    simp only [pyInit, hu]
    rw [if_neg hno]


/-- C8 (amended): changing the units tag of a resolved `State` to `"SI"`
or `"EE"` does not merely convert the stored quantities: the setter stores
the tag and then re-assigns the `Tv` pair from the current `T` and `v`
slots, which re-runs the full validation and resolution path — in
particular, when the current slots pass the validators it issues exactly
one new backend update call, after which each property is expressed in the
new profile's display units by `applyOutputs`. -/
theorem c8_units_change_reresolves (be : Backend) (st : PState)
    (tag : String) (tq vq : Quantity) (hT : st.T = some tq)
    (hv : st.v = some vq) (htag : tag = "SI" ∨ tag = "EE") :
    pySetattr be st "units" (.str tag) =
        setPairChecked be { st with units := some tag } "Tv" tq vq ∧
      (checkDimensions ['T', 'v'] [tq, vq] = Option.none →
        checkValues ['T', 'v'] [tq, vq] = Option.none →
        (pySetattr be st "units" (.str tag)).2.2 =
          [backendCallOf 'T' 'v' tq vq]) := by
  have htag2 : tag = "EE" ∨ tag = "SI" := htag.symm
  have hmain : pySetattr be st "units" (.str tag) =
      setPairChecked be { st with units := some tag } "Tv" tq vq := by
    have h0 : pySetattr be st "units" (.str tag) =
        unitsSetter be st (.str tag) := rfl
    rw [h0]
    simp only [unitsSetter]
    rw [if_pos htag2]
    have hT2 : ({ st with units := some tag } : PState).T = some tq := hT
    have hv2 : ({ st with units := some tag } : PState).v = some vq := hv
    rw [hT2, hv2]
  refine ⟨hmain, ?_⟩
  intro hdim hval
  rw [hmain, setPairChecked_eq be { st with units := some tag } "Tv"
    'T' 'v' tq vq rfl, hdim, hval]
  unfold setProperties
  cases hbs : be (backendCallOf 'T' 'v' tq vq).selector
      (backendCallOf 'T' 'v' tq vq).args with
  | error msg =>
    cases hsat : containsStr msg "Saturation pressure" <;> simp [hsat]
  | ok out => rfl

/-- C9 (amended): assigning any single property name (`T`, `p`, `v`, `u`,
`h`, `s`, `x`) or read-only derived name (`cp`, `cv`, `phase`) raises
`AttributeError` and leaves the `State` unchanged; among attribute names
that do not start with an underscore, only the allowed two-letter pairs
and `units` can change the thermodynamic property slots (`sub` and `label`
assignments never touch them).  The original claim's stronger statement
fails because underscore-prefixed names such as `_T` write the property
slots directly (see the counterexample). -/
theorem c9_single_property_assignment :
    (∀ (be : Backend) (st : PState) (v : PyVal) (key : String),
      key ∈ allPropStrs ∨ key ∈ readOnlyProps →
        pySetattr be st key v =
          (st, some (.attributeError (unknownAttrMsg key)), [])) ∧
      (∀ (be : Backend) (st : PState) (v : PyVal) (key : String),
        startsUnd key = false → key ∉ allowedPairs → key ≠ "units" →
          ((pySetattr be st key v).1).slots = st.slots) := by
  constructor
  · intro be st v key h
    rcases h with h | h <;> fin_cases h <;> rfl
  · intro be st v key h1 h2 h3
    by_cases hsp : key ∈ ["sub", "label", "units"]
    · fin_cases hsp
      · show ((pySetattr be st "sub" v).1).slots = st.slots
        unfold pySetattr
        cases v <;> rfl
      · show ((pySetattr be st "label" v).1).slots = st.slots
        unfold pySetattr
        cases v <;> rfl
      · exact absurd rfl h3
    · unfold pySetattr
      rw [if_neg (by rw [h1]; simp [hsp]), if_neg h2]
      by_cases hu : key ∈ unsupportedPairs
      · rw [if_pos hu]
      · rw [if_neg hu]


/-! ## Witnesses and counterexamples at concrete inputs -/

theorem c1_resolution_all_or_nothing_witness :
    ((pySetattr testBackend stW "Tp"
        (.tup2 (.qty qBad) (.qty qP1atm))).1).slots = stW.slots ∧
      (pySetattr testBackend stW "Tp" (.tup2 (.qty qBad) (.qty qP1atm))).1 =
        stW :=
  c1_resolution_all_or_nothing testBackend stW "Tp" qBad qP1atm (by decide)
    (by decide)

theorem c2_pair_synonym_symmetry_witness :
    (pySetattr testBackend stW "Tp"
          (.tup2 (.qty qT400) (.qty qP1atm))).2.2 =
        (pySetattr testBackend stW (rev2 "Tp")
          (.tup2 (.qty qP1atm) (.qty qT400))).2.2 ∧
      (pySetattr testBackend stW "Tp"
          (.tup2 (.qty qT400) (.qty qP1atm))).1 =
        (pySetattr testBackend stW (rev2 "Tp")
          (.tup2 (.qty qP1atm) (.qty qT400))).1 :=
  ⟨(c2_pair_synonym_symmetry testBackend stW "Tp" 'T' 'p' qT400 qP1atm
      (by decide) rfl).1,
    (c2_pair_synonym_symmetry testBackend stW "Tp" 'T' 'p' qT400 qP1atm
      (by decide) rfl).2.1⟩

theorem c3_equality_contract_witness :
    (pyEq (.state stR) (.state stR) = .ok true ↔
        stR.sub = stR.sub ∧ isclose ⟨fInt 400, kelvin⟩ ⟨fInt 400, kelvin⟩ = true ∧
          isclose ⟨⟨1, 2⟩, m3kg⟩ ⟨⟨1, 2⟩, m3kg⟩ = true) ∧
      pyLt stR stR = .error orderingErr :=
  ⟨(c3_equality_contract stR stR ⟨fInt 400, kelvin⟩ ⟨⟨1, 2⟩, m3kg⟩ ⟨fInt 400, kelvin⟩
      ⟨⟨1, 2⟩, m3kg⟩ rfl rfl rfl rfl).1,
    (c3_equality_contract stR stR ⟨fInt 400, kelvin⟩ ⟨⟨1, 2⟩, m3kg⟩ ⟨fInt 400, kelvin⟩
      ⟨⟨1, 2⟩, m3kg⟩ rfl rfl rfl rfl).2.2.1⟩

theorem c4_physical_bounds_witness :
    (∃ e, (pySetattr testBackend stW "Tp"
          (.tup2 (.qty ⟨fInt (-100), kelvin⟩) (.qty qP1atm))).2.1 = some e ∧
        isBoundsErr 'T' 'p' e) ∧
      (pySetattr testBackend stW "Tp"
          (.tup2 (.qty ⟨fInt (-100), kelvin⟩) (.qty qP1atm))).2.2 = [] := by
  have h := c4_physical_bounds testBackend stW "Tp" 'T' 'p' ⟨fInt (-100), kelvin⟩
    qP1atm (by decide) rfl
  have h2 := h.2.1 (by decide)
  have hv : viol 'T' ⟨fInt (-100), kelvin⟩ := Or.inl ⟨Or.inl rfl, by decide⟩
  exact ⟨h2.1.mpr (Or.inl hv), h2.2 (Or.inl hv)⟩

theorem c5_backend_error_translation_witness :
    (pySetattr satBackend stW "Tp"
          (.tup2 (.qty qT400) (.qty qP1atm))).2.2 =
        [backendCallOf 'T' 'p' qT400 qP1atm] ∧
      (pySetattr satBackend stW "Tp"
          (.tup2 (.qty qT400) (.qty qP1atm))).2.1 =
        some (.stateError (notIndepMsg 'T' 'p')) := by
  have h := c5_backend_error_translation satBackend stW "Tp" 'T' 'p' qT400
    qP1atm (by decide) rfl (by decide) (by decide)
  exact ⟨h.1, (h.2.1 _ rfl).1 (by decide)⟩

theorem c6_unsupported_pair_taxonomy_witness :
    rev2 "Tu" ∈ unsupportedPairs ∧
      pySetattr testBackend stW "Tu" (.tup2 (.qty qT400) (.qty qP1atm)) =
        (stW, some (.stateError (unsupportedMsg "Tu")), []) :=
  ⟨c6_unsupported_pair_taxonomy.1 "Tu" (by decide),
    (c6_unsupported_pair_taxonomy.2.1 testBackend stW "Tu"
      (.tup2 (.qty qT400) (.qty qP1atm)) (by decide)).1⟩

theorem c7_substance_mutable_counterexample :
    (pySetattr testBackend stR "sub" (.str "NOPE")).1.sub = "NOPE" ∧
      (pySetattr testBackend stR "sub" (.str "NOPE")).2.1 = Option.none ∧
      stR.sub = "WATER" ∧ "NOPE" ∉ allowedSubs :=
  ⟨rfl, rfl, rfl, by decide⟩

theorem c7_substance_upper_and_mutable_witness :
    stW.sub = upperStr "water" ∧ upperStr "water" ∈ allowedSubs ∧
      pySetattr testBackend stR "sub" (.str "R22") =
        ({ stR with sub := "R22" }, Option.none, []) := by
  have h := c7_substance_upper_and_mutable
  have h1 := h.1 testBackend Option.none "water" .none .none [] stW rfl
  exact ⟨h1.1, h1.2, h.2.2 testBackend stR "R22"⟩

theorem c8_units_backend_call_counterexample :
    (pySetattr testBackend stR "units" (.str "SI")).2.2 =
        [⟨"DmassT_INPUTS", [fInt 2, fInt 400]⟩] ∧
      (pySetattr testBackend stR "units" (.str "SI")).2.2 ≠ [] :=
  ⟨by decide, by decide⟩

theorem c8_units_change_reresolves_witness :
    pySetattr testBackend stR "units" (.str "SI") =
        setPairChecked testBackend { stR with units := some "SI" } "Tv"
          ⟨fInt 400, kelvin⟩ ⟨⟨1, 2⟩, m3kg⟩ ∧
      (pySetattr testBackend stR "units" (.str "SI")).2.2 =
        [backendCallOf 'T' 'v' ⟨fInt 400, kelvin⟩ ⟨⟨1, 2⟩, m3kg⟩] := by
  have h := c8_units_change_reresolves testBackend stR "SI" ⟨fInt 400, kelvin⟩
    ⟨⟨1, 2⟩, m3kg⟩ rfl rfl (Or.inl rfl)
  exact ⟨h.1, h.2 (by decide) (by decide)⟩

theorem c9_underscore_slot_mutation_counterexample :
    (pySetattr testBackend stR "_T" (.qty ⟨fInt 500, kelvin⟩)).2.1 =
        Option.none ∧
      ((pySetattr testBackend stR "_T" (.qty ⟨fInt 500, kelvin⟩)).1).slots ≠
        stR.slots ∧
      ((pySetattr testBackend stR "_T" (.qty ⟨fInt 500, kelvin⟩)).1).T =
        some ⟨fInt 500, kelvin⟩ ∧
      "_T" ∉ allowedPairs ∧ "_T" ∉ ["sub", "label", "units"] :=
  ⟨rfl, fun h => absurd (congrArg Prod.fst h) (by decide), rfl, by decide,
    by decide⟩

theorem c9_single_property_assignment_witness :
    pySetattr testBackend stR "T" (.qty qT400) =
        (stR, some (.attributeError (unknownAttrMsg "T")), []) ∧
      ((pySetattr testBackend stR "label" (.str "state one")).1).slots =
        stR.slots := by
  have h := c9_single_property_assignment
  exact ⟨h.1 testBackend stR (.qty qT400) "T" (Or.inl (by decide)),
    h.2 testBackend stR (.str "state one") "label" (by decide) (by decide)
      (by decide)⟩


end Thermo
